import Mathlib

/-!
Verification of the ultra-bot command-dispatch core against its design notes.

The definitions below are shallow embeddings of the JavaScript sources:
* `RateLimiter.check`        — src/utils/rateLimiter.js
* `isValidCommandInput`      — the `Validator` class (utils, bundled with stats.js)
* `verifyOwner` / guard      — src/secure/guard.js and verifyOwner.js
* the command pipeline       — src/middleware/commandProcessor.js
* `FunEngine.startFun` etc.  — the `FunEngine` class (utils, bundled with delay.js)
* the murgi fun module       — commands/fun/murgi.js

Machine integers are modelled as `Nat` (all timestamps come from `Date.now()`
and are non-negative; the code only subtracts older from newer timestamps).
Fallible JavaScript code is modelled with `Except`; a `try/catch` wrapper is a
total function over the `Except` result.  JavaScript `Map`s are association
lists whose `set` prepends (lookup finds the most recent binding), and the
event-loop timer table is an explicit list of live timer handles.
-/

namespace UltraBot

/-! ### RateLimiter (src/utils/rateLimiter.js) -/

/-- The `limits` map of the `RateLimiter` class: key → list of timestamps. -/
abbrev RateState := List (String × List Nat)

/-- `this.limits.get(key) || []`. -/
def lookupTimes : RateState → String → List Nat
  | [], _ => []
  | (k, l) :: rest, key => if k == key then l else lookupTimes rest key

/-- `this.limits.set(key, l)`: a later binding shadows an earlier one. -/
def setTimes (st : RateState) (key : String) (l : List Nat) : RateState :=
  (key, l) :: st

/-- `RateLimiter.check(key, limit, windowMs)`, with `Date.now()` passed in as
`now`.  Prunes entries with `now - time < windowMs` false, rejects (leaving the
map untouched) when the pruned list already has `limit` entries, and otherwise
stores the pruned list with `now` pushed on the end. -/
def RateLimiter.check (st : RateState) (key : String) (limit windowMs now : Nat) :
    Bool × RateState :=
  let userLimits := lookupTimes st key
  let validLimits := userLimits.filter (fun time => now - time < windowMs)
  if validLimits.length ≥ limit then
    (false, st)
  else
    (true, setTimes st key (validLimits ++ [now]))

/-- Number of in-window timestamps currently recorded for a key (used to state
"the quota is exceeded" in theorem hypotheses). -/
def countValid (st : RateState) (key : String) (now : Nat) : Nat :=
  ((lookupTimes st key).filter (fun time => now - time < 60000)).length

/-- Iterates `check` with `limit = 5`, `windowMs = 60000` over a list of call
times, collecting the admission verdicts (scenario driver for the sliding
window property). -/
def checkSeq (st : RateState) (key : String) : List Nat → List Bool × RateState
  | [] => ([], st)
  | t :: rest =>
    let r := RateLimiter.check st key 5 60000 t
    let (bs, stF) := checkSeq r.2 key rest
    (r.1 :: bs, stF)

/-! ### Validator.isValidCommandInput (utils Validator class) -/

/-- Does the character list `l` start with `pat`? -/
def charsStartWith : List Char → List Char → Bool
  | _, [] => true
  | [], _ :: _ => false
  | a :: as, b :: bs => a == b && charsStartWith as bs

/-- Does `pat` occur contiguously inside `l`?  (Embedding of a literal,
metacharacter-free `RegExp.test`.) -/
def charsContain : List Char → List Char → Bool
  | [], pat => pat.isEmpty
  | a :: as, pat => charsStartWith (a :: as) pat || charsContain as pat

/-- `toLowerCase()` on the underlying character list (ASCII-compatible). -/
def strLower (s : String) : String := String.mk (s.data.map Char.toLower)

/-- `String.prototype.startsWith` on the underlying character lists. -/
def strStartsWith (s pre : String) : Bool := charsStartWith s.data pre.data

/-- The 12 case-insensitive literal patterns of `maliciousPatterns`, already
lower-cased (the regexes contain no metacharacters other than escaped dots and
parens, so each is a plain substring test). -/
def maliciousPatterns : List String :=
  ["<script>", "javascript:", "onload=", "onerror=", "eval(", "document.",
   "window.", "localstorage.", "process.", "require(", "fs.", "child_process"]

/-- `Validator.isValidCommandInput(input, minLength, maxLength)` restricted to
string inputs: an empty string is falsy in JavaScript, so `if (!input ...)`
rejects it regardless of `minLength`; then the length bounds; then the
case-insensitive malicious-pattern scan. -/
def isValidCommandInput (input : String) (minLength maxLength : Nat) : Bool :=
  if input == "" then false
  else if input.length < minLength || input.length > maxLength then false
  else !(maliciousPatterns.any (fun p => charsContain (strLower input).data p.data))

/-! ### RoleGuard (src/secure/guard.js and src/secure/verifyOwner.js) -/

/-- JavaScript values that can reach the guard predicates as a sender id. -/
inductive JsVal where
  | jsNull
  | jsUndefined
  | jsStr (s : String)
  | jsNum (n : Int)
deriving DecidableEq

/-- `userId.toString()`: throws (`none`) on `null` and `undefined`. -/
def jsToString : JsVal → Option String
  | .jsNull => none
  | .jsUndefined => none
  | .jsStr s => some s
  | .jsNum n => some (toString n)

/-- The parsed contents of `owner.lock`. -/
structure LockData where
  ownerHash : String
deriving DecidableEq

/-- The body of `verifyOwner(userId)` before its `try/catch`: reading/parsing
`owner.lock` can fail (`lock = none`), and `hashUid(userId)` calls
`userId.toString()`, which throws on `null`/`undefined`.  The hash function
(sha256 hex digest) is an opaque parameter. -/
def verifyOwnerE (hash : String → String) (lock : Option LockData) (userId : JsVal) :
    Except String Bool :=
  match lock with
  | none => .error "owner.lock read or parse failure"
  | some lockData =>
    match jsToString userId with
    | none => .error "TypeError: userId is null or undefined"
    | some s => .ok (lockData.ownerHash == hash s)

/-- `verifyOwner` with its `catch` block: every error resolves to `false`.  The
result is always `Except.ok`, which is the embedding of "never throws to the
caller". -/
def verifyOwnerCaught (hash : String → String) (lock : Option LockData)
    (userId : JsVal) : Except String Bool :=
  match verifyOwnerE hash lock userId with
  | .ok b => .ok b
  | .error _ => .ok false

/-- `verifyOwner(userId)` as seen by callers. -/
def verifyOwner (hash : String → String) (lock : Option LockData) (userId : JsVal) :
    Bool :=
  match verifyOwnerCaught hash lock userId with
  | .ok b => b
  | .error _ => false

/-- `guard.isOwner(userId)` — delegates to `verifyOwner`. -/
def isOwner (hash : String → String) (lock : Option LockData) (userId : JsVal) :
    Bool :=
  verifyOwner hash lock userId

/-- `guard.isAdmin(userId)` — `config.admins.includes(userId.toString())`, with
no `try/catch`: the `toString()` call throws on `null`/`undefined` and the
exception propagates to the caller. -/
def isAdminE (admins : List String) (userId : JsVal) : Except String Bool :=
  match jsToString userId with
  | none => .error "TypeError: userId is null or undefined"
  | some s => .ok (admins.contains s)

/-! ### CommandProcessor (src/middleware/commandProcessor.js)

The per-invocation `context` object and the five middleware functions.  The
external collaborators of the pipeline — the committed owner hash, the admin
list, the dynamically `require`d command handlers and the result cache reads —
are fields of an `Env` parameter; `Date.now()` is `Env.now`. -/

/-- The invocation context created at the top of `process`.  `senderID` and
`threadID` are strings where `""` stands for a missing (falsy) id. -/
structure Ctx where
  command : String
  args : List String
  userId : String
  threadId : String
  shouldContinue : Bool
  response : Option String
  cached : Bool
deriving DecidableEq

/-- External collaborators of one pipeline run. -/
structure Env where
  admins : List String
  lock : Option LockData
  hash : String → String
  handlers : String → Option (List String → String)
  cacheGet : String → Option String
  now : Nat

/-- `guard.isAdmin` specialised to the pipeline, where `event.senderID` is
already a string (`toString()` is the identity there). -/
def isAdminB (admins : List String) (userId : String) : Bool :=
  admins.contains userId

/-- `guard.isOwner` specialised to a string sender id. -/
def isOwnerB (env : Env) (userId : String) : Bool :=
  isOwner env.hash env.lock (.jsStr userId)

def invalidCommandMsg : String := "❌ Invalid command name"
def invalidArgsMsg : String := "❌ Invalid command arguments"
def invalidContextMsg : String := "❌ Invalid message context"
def userRateMsg : String := "⚠️ Rate limit exceeded. Please wait a moment."
def threadRateMsg : String := "⚠️ Too many messages in this thread. Please slow down."
def funRateMsg : String := "⚠️ Too many fun commands. Please wait before starting another."
def adminRateMsg : String := "⚠️ Admin action rate limit exceeded."

/-- Middleware 1, `validateInput`: command name, each argument, then the
message context. -/
def validateInput (ctx : Ctx) : Ctx :=
  if !(isValidCommandInput ctx.command 1 50) then
    { ctx with shouldContinue := false, response := some invalidCommandMsg }
  else if ctx.args.any (fun arg => !(isValidCommandInput arg 0 500)) then
    { ctx with shouldContinue := false, response := some invalidArgsMsg }
  else if ctx.threadId == "" || ctx.userId == "" then
    { ctx with shouldContinue := false, response := some invalidContextMsg }
  else ctx

def userCmdKey (userId : String) : String := "user:cmd:" ++ userId
def threadMsgKey (threadId : String) : String := "thread:msg:" ++ threadId
def funStartKey (userId funType : String) : String :=
  "user:fun:" ++ userId ++ ":" ++ funType
def adminActKey (userId : String) : String := "user:admin:" ++ userId

/-- `rateLimiter.checkUserCommand(userId)` — 30 per minute. -/
def checkUserCommand (st : RateState) (userId : String) (now : Nat) :
    Bool × RateState :=
  RateLimiter.check st (userCmdKey userId) 30 60000 now

/-- `rateLimiter.checkThreadMessage(threadId)` — 50 per minute. -/
def checkThreadMessage (st : RateState) (threadId : String) (now : Nat) :
    Bool × RateState :=
  RateLimiter.check st (threadMsgKey threadId) 50 60000 now

/-- `rateLimiter.checkFunCommand(userId, funType)` — 5 per minute.  A missing
`args[0]` interpolates as the string `"undefined"`. -/
def checkFunCommand (st : RateState) (userId funType : String) (now : Nat) :
    Bool × RateState :=
  RateLimiter.check st (funStartKey userId funType) 5 60000 now

/-- `rateLimiter.checkAdminAction(userId)` — 20 per minute. -/
def checkAdminAction (st : RateState) (userId : String) (now : Nat) :
    Bool × RateState :=
  RateLimiter.check st (adminActKey userId) 20 60000 now

/-- Middleware 2, `checkRateLimit`: user quota, thread quota, the fun-start
quota for `startfun`, then — only for admins who are not the owner — the
admin-action quota. -/
def checkRateLimit (env : Env) (ctx : Ctx) (st : RateState) : Ctx × RateState :=
  let r1 := checkUserCommand st ctx.userId env.now
  if !r1.1 then
    ({ ctx with shouldContinue := false, response := some userRateMsg }, r1.2)
  else
    let r2 := checkThreadMessage r1.2 ctx.threadId env.now
    if !r2.1 then
      ({ ctx with shouldContinue := false, response := some threadRateMsg }, r2.2)
    else
      if strStartsWith ctx.command "startfun" then
        let r3 := checkFunCommand r2.2 ctx.userId (ctx.args.headD "undefined") env.now
        if !r3.1 then
          ({ ctx with shouldContinue := false, response := some funRateMsg }, r3.2)
        else
          checkAdminBranch env ctx r3.2
      else
        checkAdminBranch env ctx r2.2
where
  /-- The trailing `if (guard.isAdmin(userId) && !guard.isOwner(userId))` block. -/
  checkAdminBranch (env : Env) (ctx : Ctx) (st : RateState) : Ctx × RateState :=
    if isAdminB env.admins ctx.userId && !(isOwnerB env ctx.userId) then
      let r4 := checkAdminAction st ctx.userId env.now
      if !r4.1 then
        ({ ctx with shouldContinue := false, response := some adminRateMsg }, r4.2)
      else (ctx, r4.2)
    else (ctx, st)

def ownerCommands : List String :=
  ["emergencystop", "shutdown", "addadmin", "removeadmin", "diagnostics",
   "reloadconfig", "execute", "backup", "cleanup"]
def adminCommands : List String :=
  ["startfun", "stopfun", "managegroups", "editadminphoto", "updatefun"]
def funCommands : List String := ["startfun", "stopfun"]
def userCommands : List String := ["help", "info", "stats"]

/-- `getCommandCategory(command)`. -/
def getCommandCategory (command : String) : String :=
  if ownerCommands.contains command then "owner"
  else if adminCommands.contains command then "admin"
  else if funCommands.contains command then "fun"
  else if userCommands.contains command then "user"
  else "unknown"

def ownerRequiredMsg : String := "❌ Owner access required for this command."
def adminRequiredMsg : String := "❌ Admin access required for this command."
def funRequiredMsg : String := "❌ Admin/Owner access required for fun commands."
def unknownCategoryMsg : String := "❌ Unknown command category."

/-- Middleware 3, `checkPermissions`: the `switch` over the command category;
the `default` branch fails closed. -/
def checkPermissions (env : Env) (ctx : Ctx) : Ctx :=
  match getCommandCategory ctx.command with
  | "owner" =>
    if !(isOwnerB env ctx.userId) then
      { ctx with shouldContinue := false, response := some ownerRequiredMsg }
    else ctx
  | "admin" =>
    if !(isAdminB env.admins ctx.userId) && !(isOwnerB env ctx.userId) then
      { ctx with shouldContinue := false, response := some adminRequiredMsg }
    else ctx
  | "fun" =>
    if !(isAdminB env.admins ctx.userId) && !(isOwnerB env ctx.userId) then
      { ctx with shouldContinue := false, response := some funRequiredMsg }
    else ctx
  | "user" => ctx
  | _ =>
    { ctx with shouldContinue := false, response := some unknownCategoryMsg }

/-- Middleware 4, `logCommand`: writes to the audit sink and the statistics
counters only; it neither flips `shouldContinue` nor sets a response. -/
def logCommand (ctx : Ctx) : Ctx := ctx

/-- The "command not found" reply of `executeCommand`. -/
def notFoundMsg (command : String) : String :=
  "❌ Command \"" ++ command ++ "\" not found. Use !help for available commands."

def cacheableCommands : List String := ["help", "info", "stats"]
def nonCacheableCommands : List String :=
  ["startfun", "stopfun", "execute", "emergencystop"]

def shouldCacheCommand (command : String) : Bool :=
  cacheableCommands.contains command

def shouldSkipCache (command : String) : Bool :=
  nonCacheableCommands.contains command

/-- `JSON.stringify(args)` for a list of strings (escaping elided: cache keys
are opaque). -/
def stringifyArgs (args : List String) : String :=
  "[" ++ String.intercalate "," (args.map (fun a => "\"" ++ a ++ "\"")) ++ "]"

/-- The `cmd_result:...` cache key. -/
def cacheKey (ctx : Ctx) : String :=
  "cmd_result:" ++ ctx.command ++ ":" ++ stringifyArgs ctx.args ++ ":" ++ ctx.userId

/-- Middleware 5, `executeCommand`: handler lookup (absent → "not found"
rejection), cached-result short-circuit, then the handler call.  The handler
itself and the cache write are external effects; a handler that returns
normally yields its reply string. -/
def executeCommand (env : Env) (ctx : Ctx) : Ctx :=
  match env.handlers ctx.command with
  | none =>
    { ctx with shouldContinue := false, response := some (notFoundMsg ctx.command) }
  | some handler =>
    match env.cacheGet (cacheKey ctx), shouldSkipCache ctx.command with
    | some cachedResult, false =>
      { ctx with response := some cachedResult, cached := true }
    | _, _ => { ctx with response := some (handler ctx.args) }

/-- The fresh context built at the top of `process`. -/
def initCtx (command : String) (args : List String) (userId threadId : String) :
    Ctx :=
  { command := command, args := args, userId := userId, threadId := threadId,
    shouldContinue := true, response := none, cached := false }

/-- One turn of the middleware loop: `if (!context.shouldContinue) break`. -/
def step (f : Ctx × RateState → Ctx × RateState) (acc : Ctx × RateState) :
    Ctx × RateState :=
  if acc.1.shouldContinue then f acc else acc

/-- The middleware loop through stages 1–4 (validate, rate-limit, permissions,
log). -/
def processPrefix4 (env : Env) (command : String) (args : List String)
    (userId threadId : String) (st : RateState) : Ctx × RateState :=
  let a0 := (initCtx command args userId threadId, st)
  let a1 := step (fun p => (validateInput p.1, p.2)) a0
  let a2 := step (fun p => checkRateLimit env p.1 p.2) a1
  let a3 := step (fun p => (checkPermissions env p.1, p.2)) a2
  step (fun p => (logCommand p.1, p.2)) a3

/-- `CommandProcessor.process`: the full middleware loop.  Returns the final
context (whose `response` is what `process` returns to the chat) and the rate
limiter state. -/
def process (env : Env) (command : String) (args : List String)
    (userId threadId : String) (st : RateState) : Ctx × RateState :=
  step (fun p => (executeCommand env p.1, p.2))
    (processPrefix4 env command args userId threadId st)

/-! ### FunEngine (utils, bundled with delay.js)

`activeFuns` is the `threadId → state` map; `liveTimers` is the event loop's
table of interval handles that have not been `clearInterval`ed, and
`nextTimer` allocates fresh handles (`setInterval` never reuses a live id). -/

/-- One entry of `activeFuns`, as stored by `startFun`.  The tick's
`currentIndex` is a closure variable, not this `index` field. -/
structure FunState where
  type : String
  interval : Nat
  index : Nat
  lines : List String
  userId : String
  startTime : Nat
  messageCount : Nat
deriving DecidableEq

structure StartResult where
  success : Bool
  message : Option String
  error : Option String
deriving DecidableEq

structure StopStats where
  type : String
  duration : Nat
  messagesSent : Nat
  userId : String
deriving DecidableEq

structure StopResult where
  success : Bool
  message : Option String
  error : Option String
  stats : Option StopStats
deriving DecidableEq

structure FunEngine where
  activeFuns : List (String × FunState)
  funTemplates : List (String × List String)
  liveTimers : List Nat
  nextTimer : Nat
deriving DecidableEq

/-- `Math.round(d / 1000)` for a non-negative millisecond duration `d`. -/
def jsRoundDiv1000 (d : Nat) : Nat := (2 * d + 1000) / 2000

/-- `FunEngine.startFun(api, threadId, funType, userId)` up to its first tick:
rejects when a fun is already active in the thread, when the fun type is
unknown, or when its template list is empty; otherwise registers the interval
timer and stores the fresh state (cursor 0, message counter 0). -/
def FunEngine.startFun (eng : FunEngine) (threadId funType userId : String)
    (now : Nat) : StartResult × FunEngine :=
  if (eng.activeFuns.lookup threadId).isSome then
    ({ success := false, message := none,
       error := some "Fun already running in this thread" }, eng)
  else
    match eng.funTemplates.lookup funType with
    | none =>
      ({ success := false, message := none,
         error := some ("Unknown fun type: " ++ funType) }, eng)
    | some lines =>
      if lines.length == 0 then
        ({ success := false, message := none,
           error := some "No lines available for this fun type" }, eng)
      else
        let handle := eng.nextTimer
        ({ success := true, message := some ("✅ " ++ funType ++ " fun started!"),
           error := none },
         { eng with
             activeFuns := (threadId,
               { type := funType, interval := handle, index := 0, lines := lines,
                 userId := userId, startTime := now, messageCount := 0 })
               :: eng.activeFuns,
             liveTimers := handle :: eng.liveTimers,
             nextTimer := handle + 1 })

/-- `FunEngine.stopFun(threadId)`: reported no-op when no fun is active;
otherwise clears the interval, reports duration and message count, and deletes
the state. -/
def FunEngine.stopFun (eng : FunEngine) (threadId : String) (now : Nat) :
    StopResult × FunEngine :=
  match eng.activeFuns.lookup threadId with
  | none =>
    ({ success := false, message := none,
       error := some "No active fun in this thread", stats := none }, eng)
  | some f =>
    let stats : StopStats :=
      { type := f.type, duration := jsRoundDiv1000 (now - f.startTime),
        messagesSent := f.messageCount, userId := f.userId }
    ({ success := true,
       message := some ("⛔ Fun stopped.\nDuration: " ++ toString stats.duration
         ++ "s\nMessages: " ++ toString stats.messagesSent),
       error := none, stats := some stats },
     { eng with
         activeFuns := eng.activeFuns.eraseP (fun p => p.1 == threadId),
         liveTimers := eng.liveTimers.erase f.interval })

/-- The variables captured by the `setInterval` callback of
`FunEngine.startFun`. -/
structure TickClosure where
  threadId : String
  funType : String
  userId : String
  lines : List String
  handle : Nat
deriving DecidableEq

def funTickErrorMsg : String := "❌ Error sending fun message. Fun stopped."

/-- One firing of the `FunEngine` interval callback.  The event loop only
invokes the callback while its handle is live.  `sendOk` is whether the
transport send in the `try` block succeeds; the `catch` block stops the fun
and then reports the failure to the conversation.  Returns the engine, the
messages handed to the transport, and the updated closure cursor. -/
def FunEngine.runTick (eng : FunEngine) (cl : TickClosure) (currentIndex : Nat)
    (now : Nat) (sendOk : Bool) : FunEngine × List String × Nat :=
  if cl.handle ∈ eng.liveTimers then
    let i := if currentIndex ≥ cl.lines.length then 0 else currentIndex
    let line := cl.lines.getD i ""
    if sendOk then
      (eng, [line], i + 1)
    else
      ((eng.stopFun cl.threadId now).2, [funTickErrorMsg], i + 1)
  else
    (eng, [], currentIndex)

/-! ### The murgi fun module (commands/fun/murgi.js)

The module stores per-thread state objects in `bot.funThreads`.  JavaScript
objects are references, so the runtime is modelled with an explicit heap: the
map and the timer callbacks hold object ids, and `funThreads.delete` does not
destroy the object a callback has captured. -/

/-- The per-thread object created by `murgi.execute`. -/
structure FunThread where
  type : String
  index : Nat
  interval : Option Nat
  active : Bool
  userID : String
deriving DecidableEq

/-- The bot runtime: object heap, the `funThreads` map (threadId → object id),
the event loop's live timer handles, and fresh-id counters. -/
structure BotRT where
  heap : List (Nat × FunThread)
  funThreads : List (String × Nat)
  liveTimers : List Nat
  nextRef : Nat
  nextTimer : Nat
deriving DecidableEq

/-- `clearInterval(h)` — a no-op when the handle is `null`. -/
def clearTimer (rt : BotRT) : Option Nat → BotRT
  | some h => { rt with liveTimers := rt.liveTimers.erase h }
  | none => rt

/-- In-place mutation of the object `oid` on the heap. -/
def heapSet (rt : BotRT) (oid : Nat) (t : FunThread) : BotRT :=
  { rt with heap := rt.heap.map (fun p => if p.1 == oid then (p.1, t) else p) }

/-- `bot.funThreads.delete(threadID)`. -/
def removeThread (rt : BotRT) (threadId : String) : BotRT :=
  { rt with funThreads := rt.funThreads.eraseP (fun p => p.1 == threadId) }

def murgiStartMsg : String := "🐔 Starting MURGI fun! Type !stopfun to stop."
def murgiExpiryMsg : String := "⏰ Murgi fun auto-stopped after 5 minutes!"

/-- What `murgi.execute` returns to its caller and its timers: the runtime, the
object id and interval handle captured by the tick and auto-stop callbacks,
and the chat messages it sent. -/
structure MurgiStart where
  rt : BotRT
  oid : Nat
  handle : Nat
  msgs : List String
deriving DecidableEq

/-- `murgi.execute(api, threadID, bot, userID)` after the data file was read
successfully: create the state object unless the thread already has one
(`active: true`, cursor 0), announce the start, and install the repeating
interval, storing its handle in the object.  The 5-minute auto-stop callback
later runs `murgiAutoStop` on the captured object id. -/
def murgiExecute (rt : BotRT) (threadId userID : String) : MurgiStart :=
  let (rt1, oid) :=
    match rt.funThreads.lookup threadId with
    | some o => (rt, o)
    | none =>
      let o := rt.nextRef
      ({ rt with
           heap := (o, { type := "murgi", index := 0, interval := none,
                         active := true, userID := userID }) :: rt.heap,
           funThreads := (threadId, o) :: rt.funThreads,
           nextRef := o + 1 }, o)
  let h := rt1.nextTimer
  let rt2 :=
    match rt1.heap.lookup oid with
    | some t =>
      heapSet
        { rt1 with liveTimers := h :: rt1.liveTimers, nextTimer := h + 1 }
        oid { t with interval := some h }
    | none => rt1
  { rt := rt2, oid := oid, handle := h, msgs := [murgiStartMsg] }

/-- `murgi.stop(threadID, bot)`: clears the interval and deletes the map entry
when a murgi thread exists — but never sets `active` to `false` on the
object. -/
def murgiStop (rt : BotRT) (threadId : String) : BotRT × Bool :=
  match rt.funThreads.lookup threadId with
  | none => (rt, false)
  | some oid =>
    match rt.heap.lookup oid with
    | none => (rt, false)
    | some t =>
      if t.type == "murgi" then
        (removeThread (clearTimer rt t.interval) threadId, true)
      else (rt, false)

/-- The 5-minute `setTimeout` callback of `murgi.execute`: guarded only by the
captured object's `active` flag.  When the guard passes it clears the
interval, deletes the map entry and sends the expiry notice. -/
def murgiAutoStop (rt : BotRT) (oid : Nat) (threadId : String) :
    BotRT × List String :=
  match rt.heap.lookup oid with
  | none => (rt, [])
  | some t =>
    if t.active then
      (removeThread (clearTimer rt t.interval) threadId, [murgiExpiryMsg])
    else (rt, [])

def chickenEmojis : List String := ["🐔", "🐓", "🍗", "🥚", "🐤"]

def murgiStatusList : List String :=
  ["মুরগি দৌড়াচ্ছে! 🏃‍♀️", "মুরগি ডিম পেড়েছে! 🥚", "মুরগি উড়ছে! ✈️",
   "মুরগি খাচ্ছে! 🌾", "মুরগি ডাকছে! 🔊"]

/-- The every-15th-message status update. -/
def murgiStatusMsg (statusIdx iteration : Nat) : String :=
  "📊 Murgi Fun Update:\n• "
    ++ murgiStatusList.getD (statusIdx % murgiStatusList.length) ""
    ++ "\n• Total messages: " ++ toString iteration ++ "\n• কুকড়া কু! 🐓"

/-- One firing of the murgi interval callback.  `iteration` is the closure
counter, `emojiIdx`/`statusIdx` resolve the `Math.random()` picks, and
`sendOk` is whether the transport send in the `try` block succeeds.  The
`catch` block clears the interval and deletes the map entry — and sends
nothing.  Returns the runtime, the messages sent to the thread, and the new
`iteration`. -/
def murgiTick (rt : BotRT) (oid : Nat) (threadId : String)
    (funData : List String) (iteration emojiIdx statusIdx : Nat)
    (sendOk : Bool) : BotRT × List String × Nat :=
  match rt.heap.lookup oid with
  | none => (rt, [], iteration)
  | some t =>
    if !t.active then
      (clearTimer rt t.interval, [], iteration)
    else
      let message := funData.getD (t.index % funData.length) ""
      let emoji := chickenEmojis.getD (emojiIdx % chickenEmojis.length) ""
      let finalMessage :=
        if iteration % 3 == 0 then emoji ++ " " ++ message ++ " " ++ emoji
        else message
      if sendOk then
        let rt' := heapSet rt oid { t with index := t.index + 1 }
        let iteration' := iteration + 1
        let msgs :=
          if iteration' % 15 == 0 then
            [finalMessage, murgiStatusMsg statusIdx iteration']
          else [finalMessage]
        (rt', msgs, iteration')
      else
        (removeThread (clearTimer rt t.interval) threadId, [], iteration)

/-! ## Theorems -/

/-- C1: at most one fun-loop state per conversation — while a loop is active
for a thread, a second `startFun` for the same thread returns an unsuccessful
result and leaves the engine, and in particular the existing state's cursor,
message counter and timer handle, unchanged. -/
theorem C1_second_start_rejected
    (eng : FunEngine) (threadId funType userId : String) (now : Nat)
    (st : FunState) (hactive : eng.activeFuns.lookup threadId = some st) :
    (eng.startFun threadId funType userId now).1.success = false ∧
    (eng.startFun threadId funType userId now).2 = eng ∧
    (eng.startFun threadId funType userId now).2.activeFuns.lookup threadId
      = some st := by
  simp [FunEngine.startFun, hactive]

def c1St : FunState :=
  { type := "murgi", interval := 7, index := 2, lines := ["a", "b"],
    userId := "u1", startTime := 100, messageCount := 3 }

def c1Eng : FunEngine :=
  { activeFuns := [("t1", c1St)], funTemplates := [("murgi", ["a", "b"])],
    liveTimers := [7], nextTimer := 8 }

/-- Witness for C1 at a concrete engine with an active loop. -/
theorem C1_second_start_rejected_witness :
    c1Eng.activeFuns.lookup "t1" = some c1St ∧
    (c1Eng.startFun "t1" "murgi" "u2" 500).1.success = false ∧
    (c1Eng.startFun "t1" "murgi" "u2" 500).2 = c1Eng := by
  have h : c1Eng.activeFuns.lookup "t1" = some c1St := by decide
  have h2 := C1_second_start_rejected c1Eng "t1" "murgi" "u2" 500 c1St h
  exact ⟨h, h2.1, h2.2.1⟩

def c2Rt0 : BotRT :=
  { heap := [], funThreads := [], liveTimers := [], nextRef := 0, nextTimer := 0 }

def c2Start : MurgiStart := murgiExecute c2Rt0 "t1" "u1"

def c2AfterStop : BotRT := (murgiStop c2Start.rt "t1").1

def c2Start2 : MurgiStart := murgiExecute c2AfterStop "t1" "u1"

/-- C2: the code violates the claim.  `murgi.stop` clears the interval and
deletes the map entry but never sets the captured object's `active` flag to
`false`, so the 5-minute auto-expiry callback's `if (funThread.active)` guard
still passes after a manual stop: the callback sends the expiry notice anyway,
and — if a second loop has been started in the thread meanwhile — deletes that
second loop's entry from the fun-thread table. -/
theorem C2_expiry_notice_after_manual_stop :
    (murgiStop c2Start.rt "t1").2 = true ∧
    c2AfterStop.funThreads.lookup "t1" = none ∧
    (murgiAutoStop c2AfterStop c2Start.oid "t1").2 = [murgiExpiryMsg] ∧
    c2Start2.rt.funThreads.lookup "t1" = some c2Start2.oid ∧
    (murgiAutoStop c2Start2.rt c2Start.oid "t1").2 = [murgiExpiryMsg] ∧
    (murgiAutoStop c2Start2.rt c2Start.oid "t1").1.funThreads.lookup "t1"
      = none := by
  exact ⟨rfl, rfl, rfl, rfl, rfl, rfl⟩

def c5Env : Env :=
  { admins := [], lock := none, hash := fun s => s,
    handlers := fun _ => none, cacheGet := fun _ => none, now := 0 }

/-- C5 counterexample: the command `"foobar"` has no registered handler, yet
the pipeline rejects it at the permission stage with the "Unknown command
category." message, which is not the "command not found" message and does not
reference the help command. -/
theorem C5_counterexample :
    c5Env.handlers "foobar" = none ∧
    (process c5Env "foobar" [] "u1" "t1" []).1.response
      = some unknownCategoryMsg ∧
    unknownCategoryMsg ≠ notFoundMsg "foobar" ∧
    charsContain unknownCategoryMsg.data "help".data = false ∧
    charsContain (notFoundMsg "foobar").data "help".data = true := by
  exact ⟨rfl, by decide, by decide, by decide, by decide⟩

/-- C6: for every sender id whose hash does not match the committed owner
hash — including ids whose `toString()` throws and the case where the owner
record cannot be read — `isOwner` resolves to `false` without throwing (the
caught computation is `Except.ok false`). -/
theorem C6_non_owner_resolves_false
    (hash : String → String) (lock : Option LockData) (userId : JsVal)
    (hmismatch : ∀ l s, lock = some l → jsToString userId = some s →
      hash s ≠ l.ownerHash) :
    verifyOwnerCaught hash lock userId = Except.ok false ∧
    isOwner hash lock userId = false := by
  have hc : verifyOwnerCaught hash lock userId = Except.ok false := by
    cases lock with
    | none => rfl
    | some l =>
      cases huid : jsToString userId with
      | none => simp [verifyOwnerCaught, verifyOwnerE, huid]
      | some s =>
        have hne : (l.ownerHash == hash s) = false := by
          have hm := hmismatch l s rfl huid
          simp only [beq_eq_false_iff_ne, ne_eq]
          exact fun he => hm he.symm
        simp [verifyOwnerCaught, verifyOwnerE, huid, hne]
  exact ⟨hc, by simp [isOwner, verifyOwner, hc]⟩

/-- Witness for C6: a concrete non-matching id. -/
theorem C6_non_owner_resolves_false_witness :
    (∀ l s, (some (LockData.mk "deadbeef") : Option LockData) = some l →
      jsToString (JsVal.jsStr "12345") = some s →
      (fun x => x ++ "#") s ≠ l.ownerHash) ∧
    isOwner (fun x => x ++ "#") (some (LockData.mk "deadbeef"))
      (JsVal.jsStr "12345") = false := by
  have hm : ∀ l s, (some (LockData.mk "deadbeef") : Option LockData) = some l →
      jsToString (JsVal.jsStr "12345") = some s →
      (fun x => x ++ "#") s ≠ l.ownerHash := by
    intro l s hl hs
    cases hl
    cases hs
    decide
  exact ⟨hm, (C6_non_owner_resolves_false (fun x => x ++ "#")
    (some (LockData.mk "deadbeef")) (JsVal.jsStr "12345") hm).2⟩

/-- C7 counterexample: `guard.isAdmin` does throw for a `null` sender id —
`userId.toString()` raises a `TypeError` that propagates to the caller, so the
claim that the role-check predicates never throw for null/undefined ids is
false. -/
theorem C7_counterexample :
    isAdminE ["1234567890"] JsVal.jsNull =
      Except.error "TypeError: userId is null or undefined" := rfl

/-- C7 amended: `isOwner` (via its caught computation) and `RateLimiter.check`
return a boolean and never throw for every input — including `null` and
`undefined` sender ids; `isAdmin` returns a boolean and never throws for every
sender id on which `toString()` succeeds (any string or number), but throws a
`TypeError` on `null` or `undefined`. -/
theorem C7_amended_never_throws
    (hash : String → String) (lock : Option LockData) (uid : JsVal)
    (admins : List String) (st : RateState) (key : String)
    (limit windowMs now : Nat) :
    (∃ b : Bool, verifyOwnerCaught hash lock uid = Except.ok b) ∧
    (∃ b st2, RateLimiter.check st key limit windowMs now = (b, st2)) ∧
    (∀ u : JsVal, jsToString u ≠ none →
      ∃ b : Bool, isAdminE admins u = Except.ok b) ∧
    (∀ u : JsVal, jsToString u = none →
      ∃ e : String, isAdminE admins u = Except.error e) := by
  refine ⟨?_, ⟨_, _, rfl⟩, ?_, ?_⟩
  · unfold verifyOwnerCaught
    cases verifyOwnerE hash lock uid with
    | ok b => exact ⟨b, rfl⟩
    | error e => exact ⟨false, rfl⟩
  · intro u htos
    cases huid : jsToString u with
    | none => exact absurd huid htos
    | some s => exact ⟨admins.contains s, by simp [isAdminE, huid]⟩
  · intro u hnone
    exact ⟨"TypeError: userId is null or undefined", by simp [isAdminE, hnone]⟩

/-- Witness for the amended C7: `isOwner`'s caught computation succeeds even
on a `null` id, `RateLimiter.check` returns a pair, `isAdmin` succeeds on a
string id and throws on `null`. -/
theorem C7_amended_never_throws_witness :
    (∃ b : Bool, verifyOwnerCaught (fun s => s) none JsVal.jsNull
      = Except.ok b) ∧
    (∃ b st2, RateLimiter.check [] "k" 5 60000 0 = (b, st2)) ∧
    (jsToString (JsVal.jsStr "9") ≠ none ∧
      ∃ b : Bool, isAdminE [] (JsVal.jsStr "9") = Except.ok b) ∧
    (jsToString JsVal.jsNull = none ∧
      ∃ e : String, isAdminE [] JsVal.jsNull = Except.error e) := by
  have h := C7_amended_never_throws (fun s => s) none JsVal.jsNull
    [] [] "k" 5 60000 0
  have htos : jsToString (JsVal.jsStr "9") ≠ none := by simp [jsToString]
  exact ⟨h.1, h.2.1, ⟨htos, h.2.2.1 _ htos⟩, ⟨rfl, h.2.2.2 _ rfl⟩⟩

/-- C3: sliding-window behaviour of `RateLimiter.check` with `limit = 5`,
`windowMs = 60000` on a single key: five consecutive in-window calls are all
admitted, a sixth call still inside the window is rejected and leaves the
map untouched, a call after the window has elapsed is admitted again, and in
general a rejected check records nothing. -/
theorem C3_sliding_window
    (key : String) (st0 : RateState) (t1 t2 t3 t4 t5 t6 t7 : Nat)
    (h0 : lookupTimes st0 key = [])
    (h12 : t1 ≤ t2) (h23 : t2 ≤ t3) (h34 : t3 ≤ t4) (h45 : t4 ≤ t5)
    (h56 : t5 ≤ t6) (hwin : t6 - t1 < 60000) (h7 : t6 + 60000 ≤ t7) :
    (checkSeq st0 key [t1, t2, t3, t4, t5]).1
      = [true, true, true, true, true] ∧
    (RateLimiter.check (checkSeq st0 key [t1, t2, t3, t4, t5]).2 key 5 60000
      t6).1 = false ∧
    (RateLimiter.check (checkSeq st0 key [t1, t2, t3, t4, t5]).2 key 5 60000
      t6).2 = (checkSeq st0 key [t1, t2, t3, t4, t5]).2 ∧
    (RateLimiter.check (checkSeq st0 key [t1, t2, t3, t4, t5]).2 key 5 60000
      t7).1 = true ∧
    (∀ st k lim win now, (RateLimiter.check st k lim win now).1 = false →
      (RateLimiter.check st k lim win now).2 = st) := by
  have c21 : t2 - t1 < 60000 := by omega
  have c31 : t3 - t1 < 60000 := by omega
  have c32 : t3 - t2 < 60000 := by omega
  have c41 : t4 - t1 < 60000 := by omega
  have c42 : t4 - t2 < 60000 := by omega
  have c43 : t4 - t3 < 60000 := by omega
  have c51 : t5 - t1 < 60000 := by omega
  have c52 : t5 - t2 < 60000 := by omega
  have c53 : t5 - t3 < 60000 := by omega
  have c54 : t5 - t4 < 60000 := by omega
  have c61 : t6 - t1 < 60000 := by omega
  have c62 : t6 - t2 < 60000 := by omega
  have c63 : t6 - t3 < 60000 := by omega
  have c64 : t6 - t4 < 60000 := by omega
  have c65 : t6 - t5 < 60000 := by omega
  have d1 : ¬ t7 - t1 < 60000 := by omega
  have d2 : ¬ t7 - t2 < 60000 := by omega
  have d3 : ¬ t7 - t3 < 60000 := by omega
  have d4 : ¬ t7 - t4 < 60000 := by omega
  have d5 : ¬ t7 - t5 < 60000 := by omega
  have e1 : RateLimiter.check st0 key 5 60000 t1
      = (true, (key, [t1]) :: st0) := by
    simp [RateLimiter.check, h0, setTimes]
  have e2 : RateLimiter.check ((key, [t1]) :: st0) key 5 60000 t2
      = (true, (key, [t1, t2]) :: (key, [t1]) :: st0) := by
    simp [RateLimiter.check, lookupTimes, setTimes, c21]
  have e3 : RateLimiter.check ((key, [t1, t2]) :: (key, [t1]) :: st0)
        key 5 60000 t3
      = (true, (key, [t1, t2, t3]) :: (key, [t1, t2]) :: (key, [t1]) :: st0) := by
    simp [RateLimiter.check, lookupTimes, setTimes, c31, c32]
  have e4 : RateLimiter.check
        ((key, [t1, t2, t3]) :: (key, [t1, t2]) :: (key, [t1]) :: st0)
        key 5 60000 t4
      = (true, (key, [t1, t2, t3, t4]) :: (key, [t1, t2, t3])
          :: (key, [t1, t2]) :: (key, [t1]) :: st0) := by
    simp [RateLimiter.check, lookupTimes, setTimes, c41, c42, c43]
  have e5 : RateLimiter.check
        ((key, [t1, t2, t3, t4]) :: (key, [t1, t2, t3]) :: (key, [t1, t2])
          :: (key, [t1]) :: st0) key 5 60000 t5
      = (true, (key, [t1, t2, t3, t4, t5]) :: (key, [t1, t2, t3, t4])
          :: (key, [t1, t2, t3]) :: (key, [t1, t2]) :: (key, [t1]) :: st0) := by
    simp [RateLimiter.check, lookupTimes, setTimes, c51, c52, c53, c54]
  have e6 : RateLimiter.check
        ((key, [t1, t2, t3, t4, t5]) :: (key, [t1, t2, t3, t4])
          :: (key, [t1, t2, t3]) :: (key, [t1, t2]) :: (key, [t1]) :: st0)
        key 5 60000 t6
      = (false, (key, [t1, t2, t3, t4, t5]) :: (key, [t1, t2, t3, t4])
          :: (key, [t1, t2, t3]) :: (key, [t1, t2]) :: (key, [t1]) :: st0) := by
    simp [RateLimiter.check, lookupTimes, setTimes, c61, c62, c63, c64, c65]
  have e7 : (RateLimiter.check
        ((key, [t1, t2, t3, t4, t5]) :: (key, [t1, t2, t3, t4])
          :: (key, [t1, t2, t3]) :: (key, [t1, t2]) :: (key, [t1]) :: st0)
        key 5 60000 t7).1 = true := by
    simp [RateLimiter.check, lookupTimes, setTimes, d1, d2, d3, d4, d5]
  have eseq : checkSeq st0 key [t1, t2, t3, t4, t5]
      = ([true, true, true, true, true],
         (key, [t1, t2, t3, t4, t5]) :: (key, [t1, t2, t3, t4])
           :: (key, [t1, t2, t3]) :: (key, [t1, t2]) :: (key, [t1]) :: st0) := by
    simp [checkSeq, e1, e2, e3, e4, e5]
  refine ⟨by rw [eseq], by rw [eseq, e6], by rw [eseq, e6], by rw [eseq]; exact e7,
    ?_⟩
  intro st k lim win now h
  unfold RateLimiter.check at h ⊢
  by_cases hc : ((lookupTimes st k).filter
      (fun time => now - time < win)).length ≥ lim
  · simp [hc]
  · simp [hc] at h

/-- Witness for C3 at concrete call times 0,1,2,3,4 then 5, then 60005. -/
theorem C3_sliding_window_witness :
    lookupTimes [] "user:cmd:u1" = [] ∧
    (checkSeq [] "user:cmd:u1" [0, 1, 2, 3, 4]).1
      = [true, true, true, true, true] ∧
    (RateLimiter.check (checkSeq [] "user:cmd:u1" [0, 1, 2, 3, 4]).2
      "user:cmd:u1" 5 60000 5).1 = false ∧
    (RateLimiter.check (checkSeq [] "user:cmd:u1" [0, 1, 2, 3, 4]).2
      "user:cmd:u1" 5 60000 60005).1 = true := by
  have h := C3_sliding_window "user:cmd:u1" [] 0 1 2 3 4 5 60005 rfl
    (by omega) (by omega) (by omega) (by omega) (by omega) (by omega) (by omega)
  exact ⟨rfl, h.1, h.2.1, h.2.2.2.1⟩

theorem initCtx_shouldContinue (c : String) (a : List String) (u t : String) :
    (initCtx c a u t).shouldContinue = true := rfl

theorem initCtx_command (c : String) (a : List String) (u t : String) :
    (initCtx c a u t).command = c := rfl

theorem initCtx_args (c : String) (a : List String) (u t : String) :
    (initCtx c a u t).args = a := rfl

theorem initCtx_userId (c : String) (a : List String) (u t : String) :
    (initCtx c a u t).userId = u := rfl

theorem initCtx_threadId (c : String) (a : List String) (u t : String) :
    (initCtx c a u t).threadId = t := rfl

/-- C4: an invocation that fails input validation is rejected by the Validate
stage with its validation message, before RateCheck runs — even when the
sender's command quota is already exhausted.  The pipeline's answer is exactly
the validator's rejection, the rate-limiter state is untouched, and the
response is none of the four rate-limit messages. -/
theorem C4_validation_before_rate
    (env : Env) (command : String) (args : List String)
    (userId threadId : String) (st0 : RateState)
    (hv : (validateInput (initCtx command args userId threadId)).shouldContinue
      = false)
    (hq : 30 ≤ countValid st0 (userCmdKey userId) env.now) :
    (process env command args userId threadId st0).2 = st0 ∧
    ((process env command args userId threadId st0).1.response
        = some invalidCommandMsg ∨
     (process env command args userId threadId st0).1.response
        = some invalidArgsMsg ∨
     (process env command args userId threadId st0).1.response
        = some invalidContextMsg) ∧
    (∀ m ∈ [userRateMsg, threadRateMsg, funRateMsg, adminRateMsg],
      (process env command args userId threadId st0).1.response ≠ some m) := by
  have hstep : process env command args userId threadId st0
      = (validateInput (initCtx command args userId threadId), st0) := by
    simp [process, processPrefix4, step, initCtx_shouldContinue, hv]
  have hresp : (validateInput (initCtx command args userId threadId)).response
        = some invalidCommandMsg ∨
      (validateInput (initCtx command args userId threadId)).response
        = some invalidArgsMsg ∨
      (validateInput (initCtx command args userId threadId)).response
        = some invalidContextMsg := by
    cases hb1 : isValidCommandInput command 1 50 with
    | false =>
      left
      simp only [validateInput, initCtx_command, hb1]
      rfl
    | true =>
      cases hb2 : args.any (fun arg => !(isValidCommandInput arg 0 500)) with
      | true =>
        right; left
        simp only [validateInput, initCtx_command, initCtx_args, hb1, hb2]
        rfl
      | false =>
        cases hb3 : (threadId == "" || userId == "") with
        | true =>
          right; right
          simp only [validateInput, initCtx_command, initCtx_args,
            initCtx_threadId, initCtx_userId, hb1, hb2, hb3]
          rfl
        | false =>
          exfalso
          have hsc : (validateInput (initCtx command args userId
              threadId)).shouldContinue = true := by
            simp only [validateInput, initCtx_command, initCtx_args,
              initCtx_threadId, initCtx_userId, hb1, hb2, hb3]
            rfl
          exact absurd (hsc.symm.trans hv) (by decide)
  rw [hstep]
  refine ⟨rfl, hresp, ?_⟩
  intro m hm
  simp at hm
  rcases hresp with h | h | h <;> rw [h] <;>
    rcases hm with rfl | rfl | rfl | rfl <;> decide

def c4Env : Env :=
  { admins := [], lock := none, hash := fun s => s,
    handlers := fun _ => none, cacheGet := fun _ => none, now := 0 }

def c4St : RateState := [("user:cmd:u1", List.replicate 30 0)]

/-- Witness for C4: an empty command name (fails validation) from a sender
whose 30-per-minute quota is already full. -/
theorem C4_validation_before_rate_witness :
    (validateInput (initCtx "" [] "u1" "t1")).shouldContinue = false ∧
    30 ≤ countValid c4St (userCmdKey "u1") c4Env.now ∧
    (process c4Env "" [] "u1" "t1" c4St).2 = c4St ∧
    ((process c4Env "" [] "u1" "t1" c4St).1.response = some invalidCommandMsg ∨
     (process c4Env "" [] "u1" "t1" c4St).1.response = some invalidArgsMsg ∨
     (process c4Env "" [] "u1" "t1" c4St).1.response = some invalidContextMsg) := by
  have h1 : (validateInput (initCtx "" [] "u1" "t1")).shouldContinue = false := by
    decide
  have h2 : 30 ≤ countValid c4St (userCmdKey "u1") c4Env.now := by decide
  have h := C4_validation_before_rate c4Env "" [] "u1" "t1" c4St h1 h2
  exact ⟨h1, h2, h.1, h.2.1⟩

theorem step_preserves_command (f : Ctx × RateState → Ctx × RateState)
    (hf : ∀ p, ((f p).1).command = p.1.command) (acc : Ctx × RateState) :
    ((step f acc).1).command = acc.1.command := by
  unfold step
  split
  · exact hf acc
  · rfl

theorem validateInput_command (ctx : Ctx) :
    (validateInput ctx).command = ctx.command := by
  unfold validateInput
  split
  · rfl
  · split
    · rfl
    · split <;> rfl

theorem checkRateLimit_command (env : Env) (ctx : Ctx) (st : RateState) :
    ((checkRateLimit env ctx st).1).command = ctx.command := by
  simp only [checkRateLimit, checkRateLimit.checkAdminBranch]
  repeat' split
  all_goals rfl

theorem checkPermissions_command (env : Env) (ctx : Ctx) :
    (checkPermissions env ctx).command = ctx.command := by
  unfold checkPermissions
  repeat' split
  all_goals rfl

theorem processPrefix4_command (env : Env) (command : String)
    (args : List String) (userId threadId : String) (st0 : RateState) :
    ((processPrefix4 env command args userId threadId st0).1).command
      = command := by
  simp only [processPrefix4]
  rw [step_preserves_command, step_preserves_command, step_preserves_command,
    step_preserves_command]
  · rfl
  · exact fun p => validateInput_command p.1
  · exact fun p => checkRateLimit_command env p.1 p.2
  · exact fun p => checkPermissions_command env p.1
  · exact fun p => rfl

/-- C5 amended: an invocation that reaches the Execute stage (validation, rate
checks, permissions and logging all passed) and whose command has no
registered handler is rejected with the "command not found" message that
references `!help`; a command of unknown category never reaches Execute — the
permission stage rejects it with the "Unknown command category." message,
which does not reference help. -/
theorem C5_amended_unknown_handler
    (env : Env) (command : String) (args : List String)
    (userId threadId : String) (st0 : RateState)
    (h4 : ((processPrefix4 env command args userId threadId
      st0).1).shouldContinue = true)
    (hnone : env.handlers command = none) :
    (process env command args userId threadId st0).1.response
      = some (notFoundMsg command) ∧
    (process env command args userId threadId st0).1.shouldContinue = false ∧
    (∀ ctx : Ctx, getCommandCategory ctx.command = "unknown" →
      checkPermissions env ctx
        = { ctx with shouldContinue := false,
                     response := some unknownCategoryMsg }) := by
  have hcmd := processPrefix4_command env command args userId threadId st0
  have hex : process env command args userId threadId st0
      = (executeCommand env
          (processPrefix4 env command args userId threadId st0).1,
         (processPrefix4 env command args userId threadId st0).2) := by
    simp [process, step, h4]
  refine ⟨?_, ?_, ?_⟩
  · rw [hex]
    show (executeCommand env
      (processPrefix4 env command args userId threadId st0).1).response
      = some (notFoundMsg command)
    unfold executeCommand
    rw [hcmd, hnone]
  · rw [hex]
    show (executeCommand env
      (processPrefix4 env command args userId threadId st0).1).shouldContinue
      = false
    unfold executeCommand
    rw [hcmd, hnone]
  · intro ctx hcat
    unfold checkPermissions
    rw [hcat]
    rfl

/-- Witness for the amended C5: `"help"` (known user category, no registered
handler) is rejected with the not-found help hint, while `"foobar"` (unknown
category) is rejected at the permission stage. -/
theorem C5_amended_unknown_handler_witness :
    ((processPrefix4 c5Env "help" [] "u1" "t1" []).1).shouldContinue = true ∧
    c5Env.handlers "help" = none ∧
    (process c5Env "help" [] "u1" "t1" []).1.response
      = some (notFoundMsg "help") ∧
    getCommandCategory "foobar" = "unknown" ∧
    checkPermissions c5Env (initCtx "foobar" [] "u1" "t1")
      = { (initCtx "foobar" [] "u1" "t1") with
          shouldContinue := false,
          response := some unknownCategoryMsg } := by
  have h4 : ((processPrefix4 c5Env "help" [] "u1" "t1" []).1).shouldContinue
      = true := by decide
  have hnone : c5Env.handlers "help" = none := rfl
  have h := C5_amended_unknown_handler c5Env "help" [] "u1" "t1" [] h4 hnone
  exact ⟨h4, hnone, h.1, by decide, h.2.2 _ (by decide)⟩

theorem lookupPairs_eq_none {β : Type} (l : List (String × β)) (k : String)
    (h : k ∉ l.map Prod.fst) : l.lookup k = none := by
  induction l with
  | nil => rfl
  | cons a rest ih =>
    obtain ⟨k1, b1⟩ := a
    simp only [List.map_cons, List.mem_cons] at h
    push_neg at h
    have hne : (k == k1) = false := beq_eq_false_iff_ne.mpr h.1
    simp only [List.lookup, hne]
    exact ih h.2

theorem erasePKey_lookup_none {β : Type} (l : List (String × β)) (k : String)
    (h : (l.map Prod.fst).Nodup) :
    (l.eraseP (fun p => p.1 == k)).lookup k = none := by
  induction l with
  | nil => rfl
  | cons a rest ih =>
    obtain ⟨k1, b1⟩ := a
    simp only [List.map_cons, List.nodup_cons] at h
    by_cases hk : k1 = k
    · subst hk
      rw [List.eraseP_cons_of_pos (by simp)]
      exact lookupPairs_eq_none rest k1 h.1
    · rw [List.eraseP_cons_of_neg (by simp [hk])]
      have hne : (k == k1) = false := beq_eq_false_iff_ne.mpr (Ne.symm hk)
      simp only [List.lookup, hne]
      exact ih h.2

theorem clearTimer_funThreads (rt : BotRT) (o : Option Nat) :
    (clearTimer rt o).funThreads = rt.funThreads := by
  cases o <;> rfl

theorem erasePKey_of_lookup_none {β : Type} (l : List (String × β)) (k : String)
    (h : l.lookup k = none) : l.eraseP (fun p => p.1 == k) = l := by
  induction l with
  | nil => rfl
  | cons a rest ih =>
    obtain ⟨k1, b1⟩ := a
    by_cases hk : k = k1
    · subst hk
      simp [List.lookup] at h
    · have h1 : (k == k1) = false := beq_eq_false_iff_ne.mpr hk
      have h2 : (k1 == k) = false := beq_eq_false_iff_ne.mpr (Ne.symm hk)
      simp only [List.lookup, h1] at h
      rw [List.eraseP_cons_of_neg (by simp [h2]), ih h]

/-- C8: starting a loop and then immediately stopping it (no tick fires in
between) succeeds, reports duration `Math.round((t2 - t)/1000)` (non-negative)
and a message count of 0 — equal to the number of messages sent during the
loop's lifetime — and leaves no residual state or timer: the thread has no
entry in the active-loop table and a subsequently fired tick on the loop's
handle is a no-op that sends nothing. -/
theorem C8_start_stop_roundtrip
    (eng : FunEngine) (threadId funType userId : String) (lines : List String)
    (t t2 : Nat)
    (hno : eng.activeFuns.lookup threadId = none)
    (htpl : eng.funTemplates.lookup funType = some lines)
    (hne : lines ≠ [])
    (hfresh : eng.nextTimer ∉ eng.liveTimers)
    (ht : t ≤ t2) :
    (eng.startFun threadId funType userId t).1.success = true ∧
    (((eng.startFun threadId funType userId t).2.stopFun threadId
      t2).1).success = true ∧
    (((eng.startFun threadId funType userId t).2.stopFun threadId t2).1).stats
      = some { type := funType, duration := jsRoundDiv1000 (t2 - t),
               messagesSent := 0, userId := userId } ∧
    (((eng.startFun threadId funType userId t).2.stopFun threadId
      t2).2).activeFuns.lookup threadId = none ∧
    (∀ (cl : TickClosure) (cursor now : Nat) (sendOk : Bool),
      cl.handle = eng.nextTimer →
      FunEngine.runTick
        (((eng.startFun threadId funType userId t).2.stopFun threadId t2).2)
        cl cursor now sendOk
        = ((((eng.startFun threadId funType userId t).2.stopFun threadId
            t2).2), [], cursor)) := by
  have hlen : (lines.length == 0) = false := by
    cases lines with
    | nil => exact absurd rfl hne
    | cons a as => rfl
  have e1 : eng.startFun threadId funType userId t
      = ({ success := true,
           message := some ("✅ " ++ funType ++ " fun started!"),
           error := none },
         { eng with
             activeFuns := (threadId,
               { type := funType, interval := eng.nextTimer, index := 0,
                 lines := lines, userId := userId, startTime := t,
                 messageCount := 0 }) :: eng.activeFuns,
             liveTimers := eng.nextTimer :: eng.liveTimers,
             nextTimer := eng.nextTimer + 1 }) := by
    simp [FunEngine.startFun, hno, htpl, hlen]
  have e2 : FunEngine.stopFun
      { eng with
          activeFuns := (threadId,
            { type := funType, interval := eng.nextTimer, index := 0,
              lines := lines, userId := userId, startTime := t,
              messageCount := 0 }) :: eng.activeFuns,
          liveTimers := eng.nextTimer :: eng.liveTimers,
          nextTimer := eng.nextTimer + 1 } threadId t2
      = ({ success := true,
           message := some ("⛔ Fun stopped.\nDuration: "
             ++ toString (jsRoundDiv1000 (t2 - t)) ++ "s\nMessages: "
             ++ toString 0),
           error := none,
           stats := some { type := funType,
                           duration := jsRoundDiv1000 (t2 - t),
                           messagesSent := 0, userId := userId } },
         { eng with
             activeFuns := eng.activeFuns,
             liveTimers := eng.liveTimers,
             nextTimer := eng.nextTimer + 1 }) := by
    simp [FunEngine.stopFun, List.lookup, List.eraseP_cons_of_pos,
      List.erase_cons_head]
  refine ⟨by rw [e1], ?_, ?_, ?_, ?_⟩
  · rw [e1, e2]
  · rw [e1, e2]
  · rw [e1, e2]
    exact hno
  · intro cl cursor now sendOk hh
    rw [e1, e2]
    unfold FunEngine.runTick
    rw [hh, if_neg hfresh]

def c8Eng : FunEngine :=
  { activeFuns := [], funTemplates := [("murgi", ["l1", "l2"])],
    liveTimers := [], nextTimer := 0 }

/-- Witness for C8: start at t=100ms, stop at t=1600ms — duration rounds to
2 s, message count 0, no residual entry, and a later tick on the stale handle
does nothing. -/
theorem C8_start_stop_roundtrip_witness :
    c8Eng.activeFuns.lookup "t1" = none ∧
    c8Eng.funTemplates.lookup "murgi" = some ["l1", "l2"] ∧
    (c8Eng.startFun "t1" "murgi" "u1" 100).1.success = true ∧
    (((c8Eng.startFun "t1" "murgi" "u1" 100).2.stopFun "t1" 1600).1).stats
      = some { type := "murgi", duration := 2, messagesSent := 0,
               userId := "u1" } ∧
    (((c8Eng.startFun "t1" "murgi" "u1" 100).2.stopFun "t1"
      1600).2).activeFuns.lookup "t1" = none ∧
    FunEngine.runTick
        (((c8Eng.startFun "t1" "murgi" "u1" 100).2.stopFun "t1" 1600).2)
        { threadId := "t1", funType := "murgi", userId := "u1",
          lines := ["l1", "l2"], handle := 0 } 3 2000 true
      = ((((c8Eng.startFun "t1" "murgi" "u1" 100).2.stopFun "t1" 1600).2),
         [], 3) := by
  have h := C8_start_stop_roundtrip c8Eng "t1" "murgi" "u1" ["l1", "l2"]
    100 1600 rfl rfl (by decide) (by decide) (by omega)
  refine ⟨rfl, rfl, h.1, ?_, h.2.2.2.1, h.2.2.2.2 _ 3 2000 true rfl⟩
  rw [h.2.2.1]
  decide

/-- C9 amended: a transport send failure during a fun-loop tick terminates
that conversation's loop immediately (timer cancelled, state removed) and is
never retried; the `FunEngine` loop additionally reports the failure with a
message to the conversation, but the per-module murgi loop terminates without
sending anything to the conversation (the failure is only logged
server-side). -/
theorem C9_send_failure_terminates
    (eng : FunEngine) (cl : TickClosure) (cursor now : Nat) (f : FunState)
    (hlive : cl.handle ∈ eng.liveTimers)
    (hentry : eng.activeFuns.lookup cl.threadId = some f)
    (hint : f.interval = cl.handle)
    (hnd : eng.liveTimers.Nodup)
    (hkeys : (eng.activeFuns.map Prod.fst).Nodup)
    (rt : BotRT) (oid : Nat) (threadId : String) (funData : List String)
    (iteration emojiIdx statusIdx : Nat) (t : FunThread)
    (hheap : rt.heap.lookup oid = some t)
    (hact : t.active = true)
    (htk : (rt.funThreads.map Prod.fst).Nodup) :
    ((eng.runTick cl cursor now false).1.activeFuns.lookup cl.threadId
        = none ∧
     cl.handle ∉ (eng.runTick cl cursor now false).1.liveTimers ∧
     (eng.runTick cl cursor now false).2.1 = [funTickErrorMsg]) ∧
    ((murgiTick rt oid threadId funData iteration emojiIdx statusIdx
        false).1.funThreads.lookup threadId = none ∧
     (murgiTick rt oid threadId funData iteration emojiIdx statusIdx
        false).2.1 = []) := by
  have hrun : eng.runTick cl cursor now false
      = ((eng.stopFun cl.threadId now).2, [funTickErrorMsg],
         (if cursor ≥ cl.lines.length then 0 else cursor) + 1) := by
    unfold FunEngine.runTick
    rw [if_pos hlive]
    simp
  have hstop : (eng.stopFun cl.threadId now).2
      = { eng with
          activeFuns := eng.activeFuns.eraseP (fun p => p.1 == cl.threadId),
          liveTimers := eng.liveTimers.erase f.interval } := by
    unfold FunEngine.stopFun
    rw [hentry]
  have hmurgi : murgiTick rt oid threadId funData iteration emojiIdx statusIdx
      false
      = (removeThread (clearTimer rt t.interval) threadId, [], iteration) := by
    unfold murgiTick
    rw [hheap]
    simp [hact]
  refine ⟨⟨?_, ?_, ?_⟩, ?_, ?_⟩
  · rw [hrun, hstop]
    exact erasePKey_lookup_none eng.activeFuns cl.threadId hkeys
  · rw [hrun, hstop, hint]
    intro hm
    exact ((List.Nodup.mem_erase_iff hnd).mp hm).1 rfl
  · rw [hrun]
  · rw [hmurgi]
    show ((removeThread (clearTimer rt t.interval)
      threadId).funThreads).lookup threadId = none
    unfold removeThread
    exact erasePKey_lookup_none _ threadId
      (by rw [clearTimer_funThreads]; exact htk)
  · rw [hmurgi]

def c9Eng : FunEngine :=
  { activeFuns := [("t1",
      { type := "murgi", interval := 5, index := 0, lines := ["a"],
        userId := "u1", startTime := 0, messageCount := 0 })],
    funTemplates := [("murgi", ["a"])], liveTimers := [5], nextTimer := 6 }

def c9Cl : TickClosure :=
  { threadId := "t1", funType := "murgi", userId := "u1", lines := ["a"],
    handle := 5 }

def c9Obj : FunThread :=
  { type := "murgi", index := 0, interval := some 9, active := true,
    userID := "u1" }

def c9Rt : BotRT :=
  { heap := [(0, c9Obj)], funThreads := [("t1", 0)], liveTimers := [9],
    nextRef := 1, nextTimer := 10 }

/-- Witness for the amended C9 at concrete engines. -/
theorem C9_send_failure_terminates_witness :
    (c9Cl.handle ∈ c9Eng.liveTimers ∧
     c9Eng.activeFuns.lookup c9Cl.threadId
       = some { type := "murgi", interval := 5, index := 0, lines := ["a"],
                userId := "u1", startTime := 0, messageCount := 0 } ∧
     c9Rt.heap.lookup 0 = some c9Obj ∧ c9Obj.active = true) ∧
    ((c9Eng.runTick c9Cl 0 1000 false).1.activeFuns.lookup "t1" = none ∧
     (c9Eng.runTick c9Cl 0 1000 false).2.1 = [funTickErrorMsg]) ∧
    ((murgiTick c9Rt 0 "t1" ["hello"] 1 0 0 false).1.funThreads.lookup "t1"
        = none ∧
     (murgiTick c9Rt 0 "t1" ["hello"] 1 0 0 false).2.1 = []) := by
  have h := C9_send_failure_terminates c9Eng c9Cl 0 1000
    { type := "murgi", interval := 5, index := 0, lines := ["a"],
      userId := "u1", startTime := 0, messageCount := 0 }
    (by decide) rfl rfl (by decide) (by decide)
    c9Rt 0 "t1" ["hello"] 1 0 0 c9Obj rfl rfl (by decide)
  exact ⟨⟨by decide, rfl, rfl, rfl⟩, ⟨h.1.1, h.1.2.2⟩, ⟨h.2.1, h.2.2⟩⟩

/-- C9 counterexample to the claim as stated: in the murgi loop, a failing
transport send during an active tick removes the loop state but sends no
failure report to the conversation — the message list is empty, contradicting
"the failure is reported with a message to the conversation". -/
theorem C9_counterexample :
    c9Rt.heap.lookup 0 = some c9Obj ∧ c9Obj.active = true ∧
    (murgiTick c9Rt 0 "t1" ["hello"] 1 0 0 false).2.1 = [] ∧
    (murgiTick c9Rt 0 "t1" ["hello"] 1 0 0 false).1.funThreads.lookup "t1"
      = none ∧
    9 ∉ (murgiTick c9Rt 0 "t1" ["hello"] 1 0 0 false).1.liveTimers := by
  exact ⟨rfl, rfl, rfl, rfl, by decide⟩

theorem lookupTimes_setTimes_ne (st : RateState) (k' k : String)
    (l : List Nat) (h : k' ≠ k) :
    lookupTimes (setTimes st k' l) k = lookupTimes st k := by
  simp [setTimes, lookupTimes, beq_eq_false_iff_ne.mpr h]

theorem check_preserves_other (st : RateState) (key other : String)
    (limit windowMs now : Nat) (h : key ≠ other) :
    lookupTimes (RateLimiter.check st key limit windowMs now).2 other
      = lookupTimes st other := by
  simp only [RateLimiter.check]
  split
  · rfl
  · exact lookupTimes_setTimes_ne st key other _ h

theorem userCmdKey_ne_adminActKey (u v : String) :
    userCmdKey u ≠ adminActKey v := by
  intro h
  have h2 := congrArg String.data h
  simp [userCmdKey, adminActKey, String.data_append] at h2

theorem threadMsgKey_ne_adminActKey (u v : String) :
    threadMsgKey u ≠ adminActKey v := by
  intro h
  have h2 := congrArg String.data h
  simp [threadMsgKey, adminActKey, String.data_append] at h2

theorem funStartKey_ne_adminActKey (u f v : String) :
    funStartKey u f ≠ adminActKey v := by
  intro h
  have h2 := congrArg String.data h
  simp [funStartKey, adminActKey, String.data_append] at h2

/-- C10: the admin-action quota applies only to admins who are not the owner.
For every invocation whose sender passes the owner check, `checkRateLimit`
never records against (or even consults) that sender's admin-action key, and
the stage can never answer with the admin-action rate-limit message. -/
theorem C10_owner_exempt_from_admin_quota
    (env : Env) (ctx : Ctx) (st : RateState)
    (howner : isOwnerB env ctx.userId = true)
    (hresp : ctx.response ≠ some adminRateMsg) :
    lookupTimes (checkRateLimit env ctx st).2 (adminActKey ctx.userId)
      = lookupTimes st (adminActKey ctx.userId) ∧
    (checkRateLimit env ctx st).1.response ≠ some adminRateMsg := by
  have hskip : (isAdminB env.admins ctx.userId
      && !(isOwnerB env ctx.userId)) = false := by
    rw [howner]
    simp
  have p1 : ∀ stx : RateState,
      lookupTimes (checkUserCommand stx ctx.userId env.now).2
        (adminActKey ctx.userId)
      = lookupTimes stx (adminActKey ctx.userId) := fun stx =>
    check_preserves_other stx _ _ 30 60000 env.now
      (userCmdKey_ne_adminActKey ctx.userId ctx.userId)
  have p2 : ∀ stx : RateState,
      lookupTimes (checkThreadMessage stx ctx.threadId env.now).2
        (adminActKey ctx.userId)
      = lookupTimes stx (adminActKey ctx.userId) := fun stx =>
    check_preserves_other stx _ _ 50 60000 env.now
      (threadMsgKey_ne_adminActKey ctx.threadId ctx.userId)
  have p3 : ∀ stx : RateState,
      lookupTimes (checkFunCommand stx ctx.userId (ctx.args.headD "undefined")
        env.now).2 (adminActKey ctx.userId)
      = lookupTimes stx (adminActKey ctx.userId) := fun stx =>
    check_preserves_other stx _ _ 5 60000 env.now
      (funStartKey_ne_adminActKey ctx.userId (ctx.args.headD "undefined")
        ctx.userId)
  constructor
  · simp only [checkRateLimit, checkRateLimit.checkAdminBranch, hskip]
    split
    · exact p1 st
    · split
      · exact (p2 _).trans (p1 st)
      · split
        · split
          · exact (p3 _).trans ((p2 _).trans (p1 st))
          · simp only [Bool.false_eq_true, if_false]
            exact (p3 _).trans ((p2 _).trans (p1 st))
        · simp only [Bool.false_eq_true, if_false]
          exact (p2 _).trans (p1 st)
  · simp only [checkRateLimit, checkRateLimit.checkAdminBranch, hskip]
    split
    · exact (by decide : (some userRateMsg : Option String) ≠ some adminRateMsg)
    · split
      · exact (by decide :
          (some threadRateMsg : Option String) ≠ some adminRateMsg)
      · split
        · split
          · exact (by decide :
              (some funRateMsg : Option String) ≠ some adminRateMsg)
          · simp only [Bool.false_eq_true, if_false]
            exact hresp
        · simp only [Bool.false_eq_true, if_false]
          exact hresp

def c10Env : Env :=
  { admins := ["u1"], lock := some { ownerHash := "H" }, hash := fun _ => "H",
    handlers := fun _ => none, cacheGet := fun _ => none, now := 0 }

/-- Witness for C10: an owner (who is also on the admin list) runs a command;
the admin-action key stays untouched and no admin rate-limit reply occurs. -/
theorem C10_owner_exempt_from_admin_quota_witness :
    isOwnerB c10Env "u1" = true ∧
    lookupTimes (checkRateLimit c10Env (initCtx "addadmin" [] "u1" "t1") []).2
      (adminActKey "u1") = lookupTimes [] (adminActKey "u1") ∧
    (checkRateLimit c10Env (initCtx "addadmin" [] "u1" "t1") []).1.response
      ≠ some adminRateMsg := by
  have howner : isOwnerB c10Env "u1" = true := rfl
  have h := C10_owner_exempt_from_admin_quota c10Env
    (initCtx "addadmin" [] "u1" "t1") [] howner (by decide)
  exact ⟨howner, h.1, h.2⟩

end UltraBot
